import Mathlib

/-!
Shallow embedding of the flash-programming planner and driver of the
`flash-rs` crate (files `common.rs`, `memory_map.rs`, `flash_algorithm.rs`,
`flash.rs`, `builder.rs`, `load.rs`) together with proofs about the claims
of its specification.

Modelling conventions:
* `u32` values are `Nat`; wherever the Rust code performs `u32` arithmetic
  that can wrap, the embedding applies `wrap32` (reduction modulo `2^32`).
  `usize` arithmetic on in-memory slice lengths is plain `Nat`.
* Bytes are `Nat` (the embedding never relies on an upper bound).
* The `f32` timing weights are modelled as exact non-negative fractions
  (`Weight`, a numerator/denominator pair, never normalised).  Every weight
  appearing in the source is an exact decimal fraction
  (`0.048`, `0.130`, `0.174`, `len / 40000.0`), so the ordering used by the
  strategy decision agrees with the idealised real-valued computation.
* Target I/O performed by the `Flash` driver is recorded as a list of
  `TargetEvent`s; values read from the target come from the `Target`
  record of oracle functions.  The builder records the driver entry points
  it invokes as a list of `DriverCall`s (the builder ignores every driver
  `Result`, so recording the calls is a faithful account of its behaviour).
* The busy-wait loop of `wait_for_completion` only polls the execution
  state; completion is modelled as immediate, after which the `r0` read
  is performed.
* Rust panics and potential non-termination (the materialisation `while`
  loop and indexing `flash_operations[0]` on an empty list) are modelled by
  `Option`: `none` stands for a run that panics or diverges.  The loop gets
  an explicit fuel parameter.
-/

deriving instance DecidableEq for Except

/-- Reduction modulo `2^32`, the effect of wrapping `u32` arithmetic. -/
def wrap32 (n : Nat) : Nat := n % 4294967296

/-- `common.rs`: `same(d1, d2)` — byte-slice equality: equal lengths and
equal bytes at every index. -/
def same (d1 d2 : List Nat) : Bool :=
  d1.length == d2.length && (List.zip d1 d2).all fun p => p.1 == p.2

/-- Exact non-negative fraction modelling an `f32` timing weight.
The fraction is never normalised, so all operations are kernel-computable. -/
structure Weight where
  num : Nat
  den : Nat
  deriving DecidableEq

/-- Exact addition of weights (cross multiplication, no normalisation). -/
def Weight.add (a b : Weight) : Weight :=
  ⟨a.num * b.den + b.num * a.den, a.den * b.den⟩

/-- Exact order comparison of weights (denominators are always positive
products of the positive literals occurring in the source). -/
def Weight.lt (a b : Weight) : Bool :=
  a.num * b.den < b.num * a.den

/-- The weight `0.0`. -/
def Weight.zero : Weight := ⟨0, 1⟩

/-- `builder.rs`: `DATA_TRANSFER_B_PER_S = 40.0 * 1000.0`. -/
def DATA_TRANSFER_B_PER_S : Nat := 40000

/-- `flash_algorithm.rs`: the algorithm entry-point selectors. -/
inductive FlashAlgorithmInstruction
  | PCInit
  | PCUninit
  | PCProgramPage
  | PCEraseSector
  | PCEraseAll
  deriving DecidableEq

/-- `flash_algorithm.rs`: the algorithm data-location selectors. -/
inductive FlashAlgorithmLocation
  | LoadAddress
  | StaticBase
  | BeginStack
  | BeginData
  | PageSize
  deriving DecidableEq

/-- `flash_algorithm.rs`: `FlashAlgorithm` is a field-less stub in the
source (`struct FlashAlgorithm {}`). -/
structure FlashAlgorithm where
  deriving DecidableEq

/-- `FlashAlgorithm::get_instruction`: every arm of the source `match`
returns `0` (the first arm `LoadAddress` is an irrefutable binding in Rust,
so the function is constantly `0`). -/
def FlashAlgorithm.get_instruction (_a : FlashAlgorithm)
    (_l : FlashAlgorithmInstruction) : Nat := 0

/-- `FlashAlgorithm::get_address`: every arm returns `0`. -/
def FlashAlgorithm.get_address (_a : FlashAlgorithm)
    (_l : FlashAlgorithmLocation) : Nat := 0

/-- `FlashAlgorithm::get_instruction_list`: returns the empty vector. -/
def FlashAlgorithm.get_instruction_list (_a : FlashAlgorithm) : List Nat := []

/-- `memory_map.rs`: `RegionType`. -/
inductive RegionType
  | Other
  | Ram
  | Rom
  | Flash
  | Device
  deriving DecidableEq

/-- `memory_map.rs`: `MemoryRegion`. -/
structure MemoryRegion where
  typ : RegionType
  start : Nat
  length : Nat
  blocksize : Nat
  algorithm : Option FlashAlgorithm
  deriving DecidableEq

/-- `memory_map.rs`: `MemoryRegion::erased_byte_value = 0x00`. -/
def MemoryRegion.erased_byte_value : Nat := 0

/-- `memory_map.rs`: `MemoryRegion::end() = self.start + self.length`
(`u32` addition, hence `wrap32`).  Named `endAddress` because `end` is a
reserved word in Lean. -/
def MemoryRegion.endAddress (r : MemoryRegion) : Nat :=
  wrap32 (r.start + r.length)

/-- `memory_map.rs`: `contains_address`:
`(address >= self.start) && (address <= self.end())`. -/
def MemoryRegion.contains_address (r : MemoryRegion) (address : Nat) : Bool :=
  decide (address ≥ r.start) && decide (address ≤ r.endAddress)

/-- `memory_map.rs`: `is_erased` — all bytes equal the erased byte value. -/
def MemoryRegion.is_erased (_r : MemoryRegion) (d : List Nat) : Bool :=
  d.all fun b => b == MemoryRegion.erased_byte_value

/-- `memory_map.rs`: `MemoryMap`. -/
structure MemoryMap where
  regions : List MemoryRegion
  deriving DecidableEq

/-- `memory_map.rs`: `get_region_for_address` — first region containing the
address, `None` if there is none. -/
def MemoryMap.get_region_for_address (m : MemoryMap) (address : Nat) :
    Option MemoryRegion :=
  m.regions.find? fun r => r.contains_address address

/-- Oracle model of the debug-probe target: the values the driver can read
back.  Writes are recorded as `TargetEvent`s instead. -/
structure Target where
  read_core_register : String → Nat
  read_memory_block8 : Nat → Nat → List Nat

/-- One interaction of the `Flash` driver with the target, in order. -/
inductive TargetEvent
  | write_memory_block32 (address : Nat) (words : List Nat)
  | write_memory_block8 (address : Nat) (data : List Nat)
  | write_core_registers_raw (regs : List (String × Nat))
  | resume
  | read_core_register (name : String)
  | read_memory_block8 (address : Nat) (len : Nat)
  deriving DecidableEq

/-- `flash.rs`: `FlashOperation` (the driver state-machine tag). -/
inductive FlashOperation
  | Erase
  | Program
  | Verify
  | None
  deriving DecidableEq

/-- The Rust discriminant of `FlashOperation` (`Erase = 1`, `Program = 2`,
`Verify = 3`, `None` takes the next value, `4`). -/
def FlashOperation.toU32 : FlashOperation → Nat
  | .Erase => 1
  | .Program => 2
  | .Verify => 3
  | .None => 4

/-- `flash.rs`: `FlashError`. -/
inductive FlashError
  | Init (code : Nat)
  | Uninit (code : Nat)
  | EraseAll (code : Nat)
  | ErasePage (code : Nat) (address : Nat)
  | ProgramPage (code : Nat) (address : Nat)
  | WrongOperationOngoing (op : FlashOperation)
  | EraseAllNotSupported
  deriving DecidableEq

/-- `flash.rs`: `PageInfo`. -/
structure PageInfo where
  base_addr : Nat
  size : Nat
  erase_weight : Weight
  program_weight : Weight
  deriving DecidableEq

/-- `flash.rs`: `FlashInfo`. -/
structure FlashInfo where
  rom_start : Nat
  erase_weight : Weight
  crc_supported : Bool
  deriving DecidableEq

/-- `flash.rs`: `Flash` — the driver bound to one flash region. -/
structure Flash where
  target : Target
  region : MemoryRegion
  flash_algorithm : FlashAlgorithm
  is_erase_all_supported : Bool
  is_double_buffering_supported : Bool
  did_prepare_target : Bool
  active_operation : FlashOperation

/-- `Flash::DEFAULT_PAGE_PROGRAM_WEIGHT = 0.130`. -/
def Flash.DEFAULT_PAGE_PROGRAM_WEIGHT : Weight := ⟨130, 1000⟩

/-- `Flash::DEFAULT_PAGE_ERASE_WEIGHT = 0.048`. -/
def Flash.DEFAULT_PAGE_ERASE_WEIGHT : Weight := ⟨48, 1000⟩

/-- `Flash::DEFAULT_CHIP_ERASE_WEIGHT = 0.174`. -/
def Flash.DEFAULT_CHIP_ERASE_WEIGHT : Weight := ⟨174, 1000⟩

/-- `flash.rs`: `Flash::get_page_info` — `None` outside the region,
otherwise the containing block of size `region.blocksize`. -/
def Flash.get_page_info (f : Flash) (address : Nat) : Option PageInfo :=
  if !(f.region.contains_address address) then
    Option.none
  else
    Option.some ⟨address - (address % f.region.blocksize), f.region.blocksize,
      Flash.DEFAULT_PAGE_ERASE_WEIGHT, Flash.DEFAULT_PAGE_PROGRAM_WEIGHT⟩

/-- `flash.rs`: `Flash::get_flash_info`. -/
def Flash.get_flash_info (f : Flash) : FlashInfo :=
  ⟨f.region.start, Flash.DEFAULT_CHIP_ERASE_WEIGHT, false⟩

/-- `flash.rs`: `Flash::call_function` — builds the register list
(`pc`, then `r0`/`r1`/`r2`/`r3` as present, `r9` and `sp` in init mode,
finally `lr = load_address + 1`), writes it, and resumes the target.
The source's `r2` arm reads `if let Some(r2) = r0`, i.e. it pushes the
value of `r0` under the name `r2` whenever `r0` is present; the embedding
reproduces that faithfully. -/
def Flash.call_function (f : Flash) (pc : Nat)
    (r0 r1 r2 r3 : Option Nat) (init : Bool) : List TargetEvent :=
  let l0 : List (String × Nat) := [("pc", pc)]
  let l1 := match r0 with
    | Option.some v => l0 ++ [("r0", v)]
    | Option.none => l0
  let l2 := match r1 with
    | Option.some v => l1 ++ [("r1", v)]
    | Option.none => l1
  -- source: `if let Some(r2) = r0 { instruction_list.push(("r2", r2)); }`
  let l3 := match r0 with
    | Option.some v => l2 ++ [("r2", v)]
    | Option.none => l2
  let l4 := match r3 with
    | Option.some v => l3 ++ [("r3", v)]
    | Option.none => l3
  let l5 := if init then
      l4 ++ [("r9", f.flash_algorithm.get_address FlashAlgorithmLocation.StaticBase),
             ("sp", f.flash_algorithm.get_address FlashAlgorithmLocation.BeginStack)]
    else l4
  let regs := l5 ++
    [("lr", wrap32 (f.flash_algorithm.get_address FlashAlgorithmLocation.LoadAddress + 1))]
  [TargetEvent.write_core_registers_raw regs, TargetEvent.resume]

/-- `flash.rs`: `Flash::wait_for_completion` — poll until halted (modelled
as immediate), then read `r0` as the algorithm's return code. -/
def Flash.wait_for_completion (f : Flash) : Nat × List TargetEvent :=
  (f.target.read_core_register ("r0"), [TargetEvent.read_core_register ("r0")])

/-- `flash.rs`: `Flash::call_function_and_wait`. -/
def Flash.call_function_and_wait (f : Flash) (pc : Nat)
    (r0 r1 r2 r3 : Option Nat) (init : Bool) : Nat × List TargetEvent :=
  let evs := f.call_function pc r0 r1 r2 r3 init
  let w := f.wait_for_completion
  (w.1, evs ++ w.2)

/-- `flash.rs`: `Flash::erase_all` — guarded by the `Erase` state and by
`is_erase_all_supported`; returns (result, target events, driver state). -/
def Flash.erase_all (f : Flash) :
    Except FlashError Unit × List TargetEvent × Flash :=
  match f.active_operation with
  | FlashOperation.Erase =>
    if f.is_erase_all_supported then
      let r := f.call_function_and_wait
        (f.flash_algorithm.get_instruction FlashAlgorithmInstruction.PCEraseAll)
        Option.none Option.none Option.none Option.none true
      (if r.1 ≠ 0 then Except.error (FlashError.EraseAll r.1) else Except.ok (), r.2, f)
    else
      (Except.error FlashError.EraseAllNotSupported, [], f)
  | o => (Except.error (FlashError.WrongOperationOngoing o), [], f)

/-- `flash.rs`: `Flash::erase_page` — guarded by the `Erase` state. -/
def Flash.erase_page (f : Flash) (address : Nat) :
    Except FlashError Unit × List TargetEvent × Flash :=
  match f.active_operation with
  | FlashOperation.Erase =>
    let r := f.call_function_and_wait
      (f.flash_algorithm.get_instruction FlashAlgorithmInstruction.PCEraseSector)
      (Option.some address) Option.none Option.none Option.none true
    (if r.1 ≠ 0 then Except.error (FlashError.ErasePage r.1 address) else Except.ok (),
     r.2, f)
  | o => (Except.error (FlashError.WrongOperationOngoing o), [], f)

/-- `flash.rs`: `Flash::program_page` — guarded by the `Program` state;
transfers the data to the begin-data buffer, then invokes `ProgramPage`. -/
def Flash.program_page (f : Flash) (address : Nat) (data : List Nat) :
    Except FlashError Unit × List TargetEvent × Flash :=
  match f.active_operation with
  | FlashOperation.Program =>
    -- `override_security_bits` is a no-op in the source.
    let begin_data := f.flash_algorithm.get_address FlashAlgorithmLocation.BeginData
    let evs0 := [TargetEvent.write_memory_block8 begin_data data]
    let r := f.call_function_and_wait
      (f.flash_algorithm.get_instruction FlashAlgorithmInstruction.PCProgramPage)
      (Option.some address) (Option.some (wrap32 data.length)) (Option.some begin_data)
      Option.none true
    (if r.1 ≠ 0 then Except.error (FlashError.ProgramPage r.1 address) else Except.ok (),
     evs0 ++ r.2, f)
  | o => (Except.error (FlashError.WrongOperationOngoing o), [], f)

/-- `builder.rs`: `PAGE_ESTIMATE_SIZE` (defined but unused by the embedded
routines). -/
def PAGE_ESTIMATE_SIZE : Nat := 32

/-- `builder.rs`: the `FlashOperation` struct (a pending host write);
it lives in the `Builder` namespace because `flash.rs` declares an
unrelated `FlashOperation` enum. -/
structure Builder.FlashOperation where
  address : Nat
  data : List Nat
  deriving DecidableEq

/-- `builder.rs`: `FlashPage` — one programmable unit. -/
structure FlashPage where
  address : Nat
  size : Nat
  data : List Nat
  erase_weight : Weight
  program_weight : Weight
  erased : Option Bool
  same : Option Bool
  deriving DecidableEq

/-- `FlashPage::new`: classification flags start out unknown. -/
def FlashPage.new (address size : Nat) (data : List Nat)
    (erase_weight program_weight : Weight) : FlashPage :=
  ⟨address, size, data, erase_weight, program_weight, Option.none, Option.none⟩

/-- `FlashPage::get_verify_weight = size / DATA_TRANSFER_B_PER_S`. -/
def FlashPage.get_verify_weight (p : FlashPage) : Weight :=
  ⟨p.size, DATA_TRANSFER_B_PER_S⟩

/-- `FlashPage::get_program_weight = program_weight + len(data) / DATA_TRANSFER_B_PER_S`. -/
def FlashPage.get_program_weight (p : FlashPage) : Weight :=
  p.program_weight.add ⟨p.data.length, DATA_TRANSFER_B_PER_S⟩

/-- `builder.rs`: `FlashBuilderError`. -/
inductive FlashBuilderError
  | AddressBeforeFlashStart (address : Nat)
  | DataOverlap (address : Nat)
  | InvalidFlashAddress (address : Nat)
  deriving DecidableEq

/-- `builder.rs`: `FlashBuilder`. -/
structure FlashBuilder where
  flash_start : Nat
  flash_operations : List Builder.FlashOperation
  buffered_data_size : Nat
  flash : Flash
  page_list : List FlashPage
  enable_double_buffering : Bool

/-- `FlashBuilder::new`. -/
def FlashBuilder.new (flash : Flash) (base_addr : Nat) : FlashBuilder :=
  ⟨base_addr, [], 0, flash, [], false⟩

/-- Insertion at the position reported by `binary_search_by_key(&address).unwrap_err()`
on a list sorted by address whose keys all differ from `address`: directly
before the first operation with a larger address. -/
def Builder.insertSorted (op : Builder.FlashOperation) :
    List Builder.FlashOperation → List Builder.FlashOperation
  | [] => [op]
  | o :: rest =>
    if op.address < o.address then op :: o :: rest
    else o :: Builder.insertSorted op rest

/-- The overlap scan of `add_data`, inner loop: carries the previous
operation and fails with `DataOverlap(operation.address)` when the previous
operation's end (`u32` arithmetic: `previous.address + previous.data.len() as u32`)
exceeds the next operation's start. -/
def Builder.check_overlap_go (prev : Option Builder.FlashOperation) :
    List Builder.FlashOperation → Except FlashBuilderError Unit
  | [] => Except.ok ()
  | op :: rest =>
    match prev with
    | Option.some p =>
      if wrap32 (p.address + wrap32 p.data.length) > op.address then
        Except.error (FlashBuilderError.DataOverlap op.address)
      else
        Builder.check_overlap_go (Option.some op) rest
    | Option.none => Builder.check_overlap_go (Option.some op) rest

/-- The overlap scan of `add_data` over the whole operation list. -/
def Builder.check_overlap (ops : List Builder.FlashOperation) :
    Except FlashBuilderError Unit :=
  Builder.check_overlap_go Option.none ops

/-- `builder.rs`: `FlashBuilder::add_data`.  Mirrors the source exactly:
an address below `flash_start` fails without touching the builder; an
address equal to an already-stored operation's address hits the
`Ok(_)` arm of `binary_search_by_key` and the new operation is silently
dropped (the source carries a `TODO` saying this should be an error);
`buffered_data_size` is incremented in either case; finally the overlap
scan runs over the (possibly extended) list — its error is returned but
the builder mutation is kept. -/
def FlashBuilder.add_data (b : FlashBuilder) (address : Nat) (data : List Nat) :
    FlashBuilder × Except FlashBuilderError Unit :=
  if address ≥ b.flash_start then
    let ops :=
      if b.flash_operations.any fun op => op.address == address then
        b.flash_operations
      else
        Builder.insertSorted ⟨address, data⟩ b.flash_operations
    let b' := { b with
      flash_operations := ops,
      buffered_data_size := wrap32 (b.buffered_data_size + wrap32 data.length) }
    (b', Builder.check_overlap ops)
  else
    (b, Except.error (FlashBuilderError.AddressBeforeFlashStart address))

/-- One driver entry point invoked by `FlashBuilder` during `program`
(the builder discards every driver `Result`, so the call list is a complete
account of its interaction with the driver and target). -/
inductive DriverCall
  | init (op : FlashOperation)
  | uninit
  | erase_all
  | erase_page (address : Nat)
  | program_page (address : Nat) (data : List Nat)
  | read_memory_block8 (address : Nat) (len : Nat)
  | cleanup
  deriving DecidableEq

/-- Inner `while pos < flash_operation.data.len()` loop of the page
materialisation in `FlashBuilder::program`.  Note that the page-gap fill of
the specification is commented out in the source (`// TODO: WTF?`), so no
target read happens here and operation bytes are appended directly after
whatever the current page already holds.  `fuel` bounds the number of loop
iterations; `none` models a diverging run. -/
def Builder.materializeFill (f : Flash) (op : Builder.FlashOperation) :
    Nat → Nat → PageInfo → FlashPage → List FlashPage →
    Option (Except FlashBuilderError (PageInfo × FlashPage × List FlashPage))
  | 0, _, _, _, _ => Option.none
  | Nat.succ fuel, pos, info, cur, acc =>
    if pos < op.data.length then
      let flash_address := wrap32 (op.address + pos)
      -- Check if the operation continues in the next page.
      if flash_address ≥ wrap32 (cur.address + cur.size) then
        match f.get_page_info flash_address with
        | Option.none =>
          Option.some (Except.error (FlashBuilderError.InvalidFlashAddress flash_address))
        | Option.some info2 =>
          let page_address := flash_address - (flash_address % info2.size)
          let cur2 := FlashPage.new page_address info2.size []
            info2.erase_weight info2.program_weight
          let amount := min (info2.size - cur2.data.length) (op.data.length - pos)
          Builder.materializeFill f op fuel (pos + amount) info2
            { cur2 with data := cur2.data ++ (op.data.drop pos).take amount }
            (acc ++ [cur])
      else
        let amount := min (info.size - cur.data.length) (op.data.length - pos)
        Builder.materializeFill f op fuel (pos + amount) info
          { cur with data := cur.data ++ (op.data.drop pos).take amount } acc
    else
      Option.some (Except.ok (info, cur, acc))

/-- Outer loop of the page materialisation: one `materializeFill` run per
flash operation, threading the latest `PageInfo`, the page under
construction and the pages finished so far. -/
def Builder.materializeOps (f : Flash) (fuel : Nat) :
    List Builder.FlashOperation → PageInfo → FlashPage → List FlashPage →
    Option (Except FlashBuilderError (List FlashPage))
  | [], _, cur, acc => Option.some (Except.ok (acc ++ [cur]))
  | op :: rest, info, cur, acc =>
    match Builder.materializeFill f op fuel 0 info cur acc with
    | Option.none => Option.none
    | Option.some (Except.error e) => Option.some (Except.error e)
    | Option.some (Except.ok (info2, cur2, acc2)) =>
      Builder.materializeOps f fuel rest info2 cur2 acc2

/-- Page materialisation of `FlashBuilder::program`: seeds the first page
from `flash_operations[0]` (a panic on the empty list, modelled by `none`)
and folds every operation into the page list. -/
def Builder.materializePages (f : Flash) (ops : List Builder.FlashOperation)
    (fuel : Nat) : Option (Except FlashBuilderError (List FlashPage)) :=
  match ops with
  | [] => Option.none
  | op0 :: _ =>
    match f.get_page_info op0.address with
    | Option.none =>
      Option.some (Except.error (FlashBuilderError.InvalidFlashAddress op0.address))
    | Option.some info =>
      let page_address := op0.address - (op0.address % info.size)
      Builder.materializeOps f fuel ops info
        (FlashPage.new page_address info.size [] info.erase_weight info.program_weight) []

/-- `FlashBuilder::mark_all_pages_for_programming`: reset both
classification flags of every page to unknown. -/
def Builder.mark_all_pages_for_programming (pages : List FlashPage) :
    List FlashPage :=
  pages.map fun p => { p with erased := Option.none, same := Option.none }

/-- `FlashBuilder::compute_chip_erase_pages_and_weight`.  The weight starts
at the region's chip-erase weight; a page contributes its program weight
only when its `erased` flag is already `Some(false)` when the loop reaches
it (whereupon the flag is overwritten with `is_erased` of the buffered
data); a page with an unknown flag merely gets the flag set.  Returns the
count, the weight and the updated pages. -/
def Builder.compute_chip_erase_pages_and_weight (f : Flash)
    (pages : List FlashPage) : Nat × Weight × List FlashPage :=
  pages.foldl
    (fun st page =>
      let count := st.1
      let w := st.2.1
      let acc := st.2.2
      match page.erased with
      | Option.some er =>
        if !er then
          (count + 1, w.add page.get_program_weight,
           acc ++ [{ page with erased := Option.some (f.region.is_erased page.data) }])
        else
          (count, w, acc ++ [page])
      | Option.none =>
        (count, w,
         acc ++ [{ page with erased := Option.some (f.region.is_erased page.data) }]))
    (0, f.get_flash_info.erase_weight, [])

/-- `FlashBuilder::compute_page_erase_pages_weight_min`: the sum of the
verify weights of all pages. -/
def Builder.compute_page_erase_pages_weight_min (pages : List FlashPage) :
    Weight :=
  pages.foldl (fun w p => w.add p.get_verify_weight) Weight.zero

/-- `FlashBuilder::chip_erase_program`: enter `Erase`, `erase_all`, leave;
enter `Program`, program every page whose `erased` flag is `Some(false)`,
leave. -/
def Builder.chip_erase_program (pages : List FlashPage) : List DriverCall :=
  [DriverCall.init FlashOperation.Erase, DriverCall.erase_all, DriverCall.uninit,
   DriverCall.init FlashOperation.Program] ++
  (pages.foldl
    (fun calls page =>
      match page.erased with
      | Option.some er =>
        if !er then calls ++ [DriverCall.program_page page.address page.data]
        else calls
      | Option.none => calls)
    []) ++
  [DriverCall.uninit]

/-- `FlashBuilder::page_erase_program`: a single pass over the pages.  A
page with a known `same` flag is erased and reprogrammed when the flag is
`Some(false)`; a page with an unknown flag is read back from the target and
only its flag is set (the `if let ... else` of the source makes these two
branches mutually exclusive within the single pass). -/
def Builder.page_erase_program (f : Flash) (pages : List FlashPage) :
    List DriverCall × List FlashPage :=
  pages.foldl
    (fun st page =>
      let calls := st.1
      let acc := st.2
      match page.same with
      | Option.some s =>
        if !s then
          (calls ++ [DriverCall.init FlashOperation.Erase,
                     DriverCall.erase_page page.address, DriverCall.uninit,
                     DriverCall.init FlashOperation.Program,
                     DriverCall.program_page page.address page.data,
                     DriverCall.uninit],
           acc ++ [page])
        else
          (calls, acc ++ [page])
      | Option.none =>
        let data := f.target.read_memory_block8 page.address page.data.length
        (calls ++ [DriverCall.read_memory_block8 page.address page.data.length],
         acc ++ [{ page with same := Option.some (same page.data data) }]))
    ([], [])

/-- Result of `FlashBuilder::program`: the chip-erase decision finally
taken, the count returned by the weight computation, the driver calls
issued and the final page list. -/
structure ProgramOutcome where
  chip_erase : Bool
  chip_erase_count : Nat
  calls : List DriverCall
  pages : List FlashPage
  deriving DecidableEq

/-- `builder.rs`: `FlashBuilder::program(chip_erase, smart_flash)`.
Pipeline of the source: materialise pages; clear the flags when
`smart_flash` is off; force `chip_erase = false` when the algorithm cannot
erase-all; compute the chip-erase weight and the page-erase minimum weight;
re-enable `chip_erase` whenever it is (still) false and the chip-erase
weight is smaller; dispatch to `chip_erase_program` or
`page_erase_program` (the double-buffer branches of the source are empty
`TODO`s); finally `cleanup`.  `none` models a panicking or diverging run. -/
def FlashBuilder.program (b : FlashBuilder) (chip_erase smart_flash : Bool)
    (fuel : Nat) : Option (Except FlashBuilderError ProgramOutcome) :=
  match Builder.materializePages b.flash b.flash_operations fuel with
  | Option.none => Option.none
  | Option.some (Except.error e) => Option.some (Except.error e)
  | Option.some (Except.ok pages0) =>
    let pages1 := if !smart_flash then
        Builder.mark_all_pages_for_programming pages0
      else pages0
    let chip_erase1 := if !b.flash.is_erase_all_supported then false else chip_erase
    let c := Builder.compute_chip_erase_pages_and_weight b.flash pages1
    let chip_erase_count := c.1
    let chip_erase_program_time := c.2.1
    let pages2 := c.2.2
    let page_erase_min_program_time :=
      Builder.compute_page_erase_pages_weight_min pages2
    let chip_erase2 :=
      if !chip_erase1 && Weight.lt chip_erase_program_time page_erase_min_program_time
      then true else chip_erase1
    let r :=
      if chip_erase2 then
        if b.flash.is_double_buffering_supported && b.enable_double_buffering then
          (([] : List DriverCall), pages2)  -- empty TODO branch in the source
        else
          (Builder.chip_erase_program pages2, pages2)
      else
        if b.flash.is_double_buffering_supported && b.enable_double_buffering then
          (([] : List DriverCall), pages2)  -- empty TODO branch in the source
        else
          Builder.page_erase_program b.flash pages2
    Option.some (Except.ok ⟨chip_erase2, chip_erase_count, r.1 ++ [DriverCall.cleanup], r.2⟩)

/-- `load.rs`: the per-builder loop body of `FlashLoader::commit`.  The
first builder receives the loader's `chip_erase` flag, and
`did_chip_erase` is set unconditionally after each iteration, so every
later builder receives `false`.  Returns the (builder, chip-erase flag)
pairs in invocation order. -/
def Loader.commitGo (chip_erase : Bool) :
    List FlashBuilder → Bool → List (FlashBuilder × Bool)
  | [], _ => []
  | b :: rest, did_chip_erase =>
    let ce := if !did_chip_erase then chip_erase else false
    (b, ce) :: Loader.commitGo chip_erase rest true

/-- The order relation `sort_unstable_by_key(|v| v.flash_start)` sorts by. -/
def Loader.byStart (a b : FlashBuilder) : Prop := a.flash_start ≤ b.flash_start

instance : DecidableRel Loader.byStart := fun a b => Nat.decLe _ _

instance : IsTotal FlashBuilder Loader.byStart :=
  ⟨fun a b => Nat.le_total a.flash_start b.flash_start⟩

instance : IsTrans FlashBuilder Loader.byStart :=
  ⟨fun _ _ _ => Nat.le_trans⟩

/-- `load.rs`: `FlashLoader::commit` — sort the builders by `flash_start`,
then invoke `program` on each with the chip-erase flag of `commitGo`.
The builder collection is passed as a list (the iteration order of the
source's `HashMap::values` is irrelevant after sorting). -/
def Loader.commit (builders : List FlashBuilder) (chip_erase : Bool) :
    List (FlashBuilder × Bool) :=
  Loader.commitGo chip_erase (builders.insertionSort Loader.byStart) false

/-! ### Concrete fixtures used by the claim theorems and witnesses -/

/-- A target whose reads return zeros (registers and memory). -/
def targetZero : Target :=
  ⟨fun _ => 0, fun _ len => List.replicate len 0⟩

/-- A target whose memory reads return the byte `9` everywhere. -/
def targetNine : Target :=
  ⟨fun _ => 0, fun _ len => List.replicate len 9⟩

/-- Flash region `[0, 0x2000)` with 4 KiB sectors. -/
def region4k : MemoryRegion :=
  ⟨RegionType.Flash, 0, 8192, 4096, Option.none⟩

/-- Flash region `[0, 0x2000)` with 256-byte sectors. -/
def region256 : MemoryRegion :=
  ⟨RegionType.Flash, 0, 8192, 256, Option.none⟩

/-- Driver over `region4k`, erase-all supported, idle. -/
def flash4k : Flash :=
  ⟨targetZero, region4k, ⟨⟩, true, false, false, FlashOperation.None⟩

/-- Driver over `region4k` whose algorithm cannot erase-all. -/
def flash4kNoEraseAll : Flash :=
  ⟨targetZero, region4k, ⟨⟩, false, false, false, FlashOperation.None⟩

/-- Driver over `region256`, erase-all supported, idle. -/
def flash256 : Flash :=
  ⟨targetZero, region256, ⟨⟩, true, false, false, FlashOperation.None⟩

/-- Driver over `region256` reading nines, idle. -/
def flash256Nine : Flash :=
  ⟨targetNine, region256, ⟨⟩, true, false, false, FlashOperation.None⟩

/-- Driver stuck in the `Verify` operation (neither `Erase` nor `Program`). -/
def flashVerify : Flash :=
  ⟨targetZero, region256, ⟨⟩, true, false, false, FlashOperation.Verify⟩

/-- Builder with two one-byte writes of `0xAA` one 4 KiB sector apart. -/
def builderTwoPagesAA : FlashBuilder :=
  { FlashBuilder.new flash4k 0 with
    flash_operations := [⟨0, [170]⟩, ⟨4096, [170]⟩] }

/-- Builder with two one-byte writes of `0x00` one 4 KiB sector apart, on a
driver that cannot erase-all. -/
def builderTwoPagesZero : FlashBuilder :=
  { FlashBuilder.new flash4kNoEraseAll 0 with
    flash_operations := [⟨0, [0]⟩, ⟨4096, [0]⟩] }

/-- Fresh builder over `flash256` starting at flash address 0. -/
def builder256 : FlashBuilder :=
  FlashBuilder.new flash256 0

/-- Builder already holding the operation `(16, [1, 2])`. -/
def builderWithOp16 : FlashBuilder :=
  { FlashBuilder.new flash256 0 with
    flash_operations := [⟨16, [1, 2]⟩], buffered_data_size := 2 }

/-- The pages `builderTwoPagesAA.program` materialises, after the erased
flags have been filled in by the weight computation. -/
def pagesTwoAA : List FlashPage :=
  [⟨0, 4096, [170], Flash.DEFAULT_PAGE_ERASE_WEIGHT, Flash.DEFAULT_PAGE_PROGRAM_WEIGHT,
    Option.some false, Option.none⟩,
   ⟨4096, 4096, [170], Flash.DEFAULT_PAGE_ERASE_WEIGHT, Flash.DEFAULT_PAGE_PROGRAM_WEIGHT,
    Option.some false, Option.none⟩]

/-- The pages `builderTwoPagesZero.program` materialises, after the erased
flags have been filled in by the weight computation. -/
def pagesTwoZero : List FlashPage :=
  [⟨0, 4096, [0], Flash.DEFAULT_PAGE_ERASE_WEIGHT, Flash.DEFAULT_PAGE_PROGRAM_WEIGHT,
    Option.some true, Option.none⟩,
   ⟨4096, 4096, [0], Flash.DEFAULT_PAGE_ERASE_WEIGHT, Flash.DEFAULT_PAGE_PROGRAM_WEIGHT,
    Option.some true, Option.none⟩]

/-- A page holding host bytes `[1, 2, 3, 4]` with unknown `same` flag. -/
def pageUnknownSame : FlashPage :=
  ⟨0, 4, [1, 2, 3, 4], Flash.DEFAULT_PAGE_ERASE_WEIGHT, Flash.DEFAULT_PAGE_PROGRAM_WEIGHT,
   Option.none, Option.none⟩

/-- Memory map with the single region `[0, 0x1000)` (256-byte sectors). -/
def mapOneRegion : MemoryMap :=
  ⟨[⟨RegionType.Flash, 0, 4096, 256, Option.none⟩]⟩

/-- Two fresh builders over distinct flash start addresses (loader fixtures). -/
def loaderBuilderA : FlashBuilder := FlashBuilder.new flash256 4096

/-- Second loader fixture builder, lower flash start than `loaderBuilderA`. -/
def loaderBuilderB : FlashBuilder := FlashBuilder.new flash256 0

/-- Builder reached by `add_data(0, [1,2,3,4])` (accepted) followed by
`add_data(2, [9])` (rejected with `DataOverlap(2)`, but `add_data` inserts
before it scans, so the mutation is kept): it stores the overlapping
operations `(0, [1,2,3,4])` and `(2, [9])`. -/
def builderStaleOverlap : FlashBuilder :=
  ((builder256.add_data 0 [1, 2, 3, 4]).1.add_data 2 [9]).1

/-! ### Claim theorems -/

/-- Claim C1 (code_bug evidence): the single-buffer page-erase routine is a
single pass with mutually exclusive branches, so a page whose `same` flag
is unknown is only read and classified — even when the readback shows the
page differs, no erase and no program call is issued for it.  Evaluated on
one page holding `[1,2,3,4]` against a target reading nines: the final
classification is `Some(false)` ("not same"), yet the complete driver-call
trace is a single memory read, contradicting the claim that every page
finally classified not-same is erased and programmed. -/
theorem page_erase_program_skips_unknown_pages :
    Builder.page_erase_program flash256Nine [pageUnknownSame]
      = ([DriverCall.read_memory_block8 0 4],
         [{ pageUnknownSame with same := Option.some false }])
    ∧ DriverCall.erase_page 0
        ∉ (Builder.page_erase_program flash256Nine [pageUnknownSame]).1
    ∧ DriverCall.program_page 0 [1, 2, 3, 4]
        ∉ (Builder.page_erase_program flash256Nine [pageUnknownSame]).1
    ∧ ((Builder.page_erase_program flash256Nine [pageUnknownSame]).2.all
        fun p => p.same == Option.some false) = true := by
  decide

/-- Claim C3 (code_bug evidence): the page-gap fill is commented out in the
source, so an operation starting in the middle of a page is appended at
offset 0 of the materialised page.  For the single write `(0x80, [1,2,3,4])`
in a 256-byte page the materialised page sits at base 0 but holds only the
four operation bytes — not the claimed contiguous prefix up to the last
written byte (which would need `0x84` bytes, the first `0x80` of them read
from the target).  No target read occurs during materialisation at all. -/
theorem materialize_no_gap_fill :
    Builder.materializePages flash256 [⟨128, [1, 2, 3, 4]⟩] 10
      = Option.some (Except.ok
          [⟨0, 256, [1, 2, 3, 4], Flash.DEFAULT_PAGE_ERASE_WEIGHT,
            Flash.DEFAULT_PAGE_PROGRAM_WEIGHT, Option.none, Option.none⟩])
    ∧ (4 : Nat) < 128 + 4 - 0 := by
  decide

/-- Claim C4 (code_bug evidence): `compute_chip_erase_pages_and_weight`
adds a page's program weight only when its `erased` flag is already
`Some(false)` before the loop reaches it, which never holds for freshly
materialised pages; pages whose flag is unknown only get the flag set.
Hence the computed chip-erase weight is always the bare region chip-erase
weight (0.174 s).  On two one-byte `0xAA` writes one 4 KiB sector apart the
code therefore picks chip erase (0.174 < 2·4096/40000), while the weight
demanded by the claim — chip-erase weight plus the program weights of the
two not-erased pages — is not below the page-erase minimum, so the claim
would pick page erase. -/
theorem chip_erase_weight_ignores_unerased_pages :
    builderTwoPagesAA.program false true 10
      = Option.some (Except.ok
          ⟨true, 0,
           [DriverCall.init FlashOperation.Erase, DriverCall.erase_all,
            DriverCall.uninit, DriverCall.init FlashOperation.Program,
            DriverCall.program_page 0 [170], DriverCall.program_page 4096 [170],
            DriverCall.uninit, DriverCall.cleanup],
           pagesTwoAA⟩)
    ∧ (pagesTwoAA.all fun p => !(flash4k.region.is_erased p.data)) = true
    ∧ Weight.lt
        (pagesTwoAA.foldl
          (fun w p =>
            if !(flash4k.region.is_erased p.data) then w.add p.get_program_weight
            else w)
          Flash.DEFAULT_CHIP_ERASE_WEIGHT)
        (Builder.compute_page_erase_pages_weight_min pagesTwoAA) = false := by
  decide

/-- Claim C5 (code_bug evidence): `program` forces `chip_erase = false`
when the algorithm cannot erase-all, but the subsequent weight comparison
re-enables it (`!chip_erase && chip_erase_weight < page_erase_min`), because
the boolean cannot distinguish "not requested" from "forced off".  With
erase-all unsupported and two pages whose verify weights sum above 0.174 s,
the chip-erase execution path is taken and `erase_all` is invoked. -/
theorem chip_erase_taken_without_erase_all_support :
    flash4kNoEraseAll.is_erase_all_supported = false
    ∧ builderTwoPagesZero.program true true 10
        = Option.some (Except.ok
            ⟨true, 0,
             [DriverCall.init FlashOperation.Erase, DriverCall.erase_all,
              DriverCall.uninit, DriverCall.init FlashOperation.Program,
              DriverCall.uninit, DriverCall.cleanup],
             pagesTwoZero⟩)
    ∧ DriverCall.erase_all ∈
        [DriverCall.init FlashOperation.Erase, DriverCall.erase_all,
         DriverCall.uninit, DriverCall.init FlashOperation.Program,
         DriverCall.uninit, DriverCall.cleanup] := by
  decide

/-- Claim C7 (code_bug evidence): adding data at an address equal to an
already-stored operation's address hits the `Ok(_)` arm of the binary
search and returns `Ok` instead of `DataOverlap`, although the two ranges
overlap (both start at 16, the first extends to 18); the new operation is
silently dropped.  The source marks the `Ok(_)` arm with a `TODO` saying an
error should be returned. -/
theorem add_data_overlap_at_equal_address_ok :
    (builder256.add_data 16 [1, 2]).2 = Except.ok ()
    ∧ ((builder256.add_data 16 [1, 2]).1.add_data 16 [3, 4]).2 = Except.ok ()
    ∧ ((builder256.add_data 16 [1, 2]).1.add_data 16 [3, 4]).1.flash_operations
        = [⟨16, [1, 2]⟩]
    ∧ (16 : Nat) < 16 + 2 := by
  decide

/-- Claim C8 (counterexample): with the single region `[0, 0x1000)` the
lookup at address `0x1000` returns `Some`, although no region of the map
satisfies the claimed containment `start ≤ addr ≤ start + length - 1`
(the source's `end()` is `start + length`, one past the claimed last
address, and `contains_address` includes it). -/
theorem get_region_containment_counterexample :
    (mapOneRegion.get_region_for_address 4096).isSome = true
    ∧ ∀ r ∈ mapOneRegion.regions,
        ¬(r.start ≤ 4096 ∧ 4096 ≤ r.start + r.length - 1) := by
  decide

/-- Claim C9 (code_bug evidence): `call_function`'s `r2` arm destructures
`r0` (`if let Some(r2) = r0`), so the register list carries `r2` bound to
the `r0` argument whenever `r0` is present and the actual `r2` argument is
ignored.  With arguments `r0 = 5, r1 = 6, r2 = 7` the list written to the
target contains `("r2", 5)` and not `("r2", 7)`. -/
theorem call_function_r2_copy_bug :
    flash256.call_function 100 (Option.some 5) (Option.some 6) (Option.some 7)
        Option.none false
      = [TargetEvent.write_core_registers_raw
           [("pc", 100), ("r0", 5), ("r1", 6), ("r2", 5), ("lr", 1)],
         TargetEvent.resume]
    ∧ (("r2", 7) : String × Nat)
        ∉ [(("pc" : String), 100), ("r0", 5), ("r1", 6), ("r2", 5), ("lr", 1)] := by
  decide

/-- Claim C6: calling `erase_all` or `erase_page` while the active
operation is not `Erase`, or `program_page` while it is not `Program`,
returns `WrongOperationOngoing` (carrying the active operation) with an
empty target-event trace — no memory write, no register write, no resume —
and the driver state unchanged. -/
theorem wrong_operation_guard (f : Flash) (address : Nat) (data : List Nat) :
    (f.active_operation ≠ FlashOperation.Erase →
      f.erase_all
        = (Except.error (FlashError.WrongOperationOngoing f.active_operation), [], f)
      ∧ f.erase_page address
        = (Except.error (FlashError.WrongOperationOngoing f.active_operation), [], f))
    ∧ (f.active_operation ≠ FlashOperation.Program →
      f.program_page address data
        = (Except.error (FlashError.WrongOperationOngoing f.active_operation), [], f)) := by
  refine ⟨fun h => ⟨?_, ?_⟩, fun h => ?_⟩ <;>
    cases hop : f.active_operation <;>
      simp_all [Flash.erase_all, Flash.erase_page, Flash.program_page]

/-- Witness for C6: a driver stuck in `Verify` refuses all three entry
points without any target interaction. -/
theorem wrong_operation_guard_witness :
    flashVerify.active_operation ≠ FlashOperation.Erase
    ∧ flashVerify.active_operation ≠ FlashOperation.Program
    ∧ flashVerify.erase_all
        = (Except.error (FlashError.WrongOperationOngoing FlashOperation.Verify), [],
           flashVerify)
    ∧ flashVerify.erase_page 5
        = (Except.error (FlashError.WrongOperationOngoing FlashOperation.Verify), [],
           flashVerify)
    ∧ flashVerify.program_page 5 [1]
        = (Except.error (FlashError.WrongOperationOngoing FlashOperation.Verify), [],
           flashVerify) :=
  ⟨by decide, by decide,
   ((wrong_operation_guard flashVerify 5 [1]).1 (by decide)).1,
   ((wrong_operation_guard flashVerify 5 [1]).1 (by decide)).2,
   (wrong_operation_guard flashVerify 5 [1]).2 (by decide)⟩

/-- The commit loop pairs every builder with the builder unchanged:
projecting the first components gives back the iterated list. -/
theorem commitGo_map_fst (ce : Bool) :
    ∀ (l : List FlashBuilder) (did : Bool),
      (Loader.commitGo ce l did).map Prod.fst = l
  | [], _ => rfl
  | b :: rest, did => by
    simp [Loader.commitGo, commitGo_map_fst ce rest true]

/-- Once `did_chip_erase` is set, every remaining builder receives
`chip_erase = false`. -/
theorem commitGo_done_map_snd (ce : Bool) :
    ∀ l : List FlashBuilder,
      (Loader.commitGo ce l true).map Prod.snd = List.replicate l.length false
  | [] => rfl
  | b :: rest => by
    simp [Loader.commitGo, commitGo_done_map_snd ce rest, List.replicate_succ]

/-- Claim C2: `FlashLoader::commit` with `chip_erase = true` over at least
two builders invokes the builders in ascending `flash_start` order and
passes `chip_erase = true` exactly to the first of them; every later
builder receives `chip_erase = false`. -/
theorem commit_at_most_one_chip_erase (builders : List FlashBuilder)
    (h : 2 ≤ builders.length) :
    ((Loader.commit builders true).map Prod.snd
       = true :: List.replicate (builders.length - 1) false)
    ∧ List.Sorted Loader.byStart ((Loader.commit builders true).map Prod.fst)
    ∧ ((Loader.commit builders true).map Prod.snd).count true = 1 := by
  have hs := List.sorted_insertionSort Loader.byStart builders
  have hlen := List.length_insertionSort Loader.byStart builders
  unfold Loader.commit
  cases hsort : builders.insertionSort Loader.byStart with
  | nil =>
    rw [hsort] at hlen
    simp at hlen
    exact ((by omega : False)).elim
  | cons b rest =>
    rw [hsort] at hs hlen
    have hrest : rest.length = builders.length - 1 := by
      simp at hlen; omega
    have hsnd : (Loader.commitGo true (b :: rest) false).map Prod.snd
        = true :: List.replicate (builders.length - 1) false := by
      simp [Loader.commitGo, commitGo_done_map_snd, hrest]
    refine ⟨hsnd, ?_, ?_⟩
    · rw [commitGo_map_fst]
      exact hs
    · rw [hsnd]
      simp [List.count_cons, List.count_replicate]

/-- Witness for C2: two concrete builders with flash starts 4096 and 0. -/
theorem commit_at_most_one_chip_erase_witness :
    2 ≤ ([loaderBuilderA, loaderBuilderB] : List FlashBuilder).length
    ∧ (((Loader.commit [loaderBuilderA, loaderBuilderB] true).map Prod.snd
         = true :: List.replicate
             (([loaderBuilderA, loaderBuilderB] : List FlashBuilder).length - 1) false)
       ∧ List.Sorted Loader.byStart
           ((Loader.commit [loaderBuilderA, loaderBuilderB] true).map Prod.fst)
       ∧ ((Loader.commit [loaderBuilderA, loaderBuilderB] true).map Prod.snd).count true
           = 1) :=
  ⟨by decide,
   commit_at_most_one_chip_erase [loaderBuilderA, loaderBuilderB] (by decide)⟩

/-- A region whose `start + length` does not wrap contains an address
exactly when `start ≤ addr ≤ start + length`. -/
theorem contains_address_iff (r : MemoryRegion) (address : Nat)
    (h : r.start + r.length < 4294967296) :
    r.contains_address address = true
      ↔ (r.start ≤ address ∧ address ≤ r.start + r.length) := by
  simp [MemoryRegion.contains_address, MemoryRegion.endAddress, wrap32,
    Nat.mod_eq_of_lt h, ge_iff_le, and_comm]

/-- Claim C8 (amended): for maps whose regions do not wrap around the
address space, `get_region_for_address` returns `Some` exactly when a
region satisfies `start ≤ addr ≤ start + length` (the source's inclusive
`end()` is `start + length`, not `start + length - 1`), the returned region
itself satisfies that containment, and `None` is returned exactly when no
region contains the address. -/
theorem get_region_containment_amended (m : MemoryMap) (address : Nat)
    (h : ∀ r ∈ m.regions, r.start + r.length < 4294967296) :
    ((m.get_region_for_address address).isSome
       ↔ ∃ r ∈ m.regions, r.start ≤ address ∧ address ≤ r.start + r.length)
    ∧ (∀ r, m.get_region_for_address address = Option.some r →
        r ∈ m.regions ∧ r.start ≤ address ∧ address ≤ r.start + r.length)
    ∧ (m.get_region_for_address address = Option.none ↔
        ∀ r ∈ m.regions, ¬(r.start ≤ address ∧ address ≤ r.start + r.length)) := by
  refine ⟨?_, ?_, ?_⟩
  · rw [MemoryMap.get_region_for_address, List.find?_isSome]
    constructor
    · rintro ⟨r, hr, hp⟩
      exact ⟨r, hr, (contains_address_iff r address (h r hr)).1 hp⟩
    · rintro ⟨r, hr, hp⟩
      exact ⟨r, hr, (contains_address_iff r address (h r hr)).2 hp⟩
  · intro r hr
    have hmem := List.mem_of_find?_eq_some hr
    have hp := List.find?_some hr
    exact ⟨hmem, (contains_address_iff r address (h r hmem)).1 hp⟩
  · rw [MemoryMap.get_region_for_address, List.find?_eq_none]
    constructor
    · intro hall r hr hc
      exact hall r hr ((contains_address_iff r address (h r hr)).2 hc)
    · intro hall r hr hc
      exact hall r hr ((contains_address_iff r address (h r hr)).1 hc)

/-- Witness for the amended C8: the one-region map at address 100. -/
theorem get_region_containment_amended_witness :
    (∀ r ∈ mapOneRegion.regions, r.start + r.length < 4294967296)
    ∧ (((mapOneRegion.get_region_for_address 100).isSome
         ↔ ∃ r ∈ mapOneRegion.regions, r.start ≤ 100 ∧ 100 ≤ r.start + r.length)
       ∧ (∀ r, mapOneRegion.get_region_for_address 100 = Option.some r →
           r ∈ mapOneRegion.regions ∧ r.start ≤ 100 ∧ 100 ≤ r.start + r.length)
       ∧ (mapOneRegion.get_region_for_address 100 = Option.none ↔
           ∀ r ∈ mapOneRegion.regions,
             ¬(r.start ≤ 100 ∧ 100 ≤ r.start + r.length))) :=
  ⟨by decide, get_region_containment_amended mapOneRegion 100 (by decide)⟩

/-- Claim C10 (counterexample): the claim as stated quantifies over every
`FlashBuilder`, but a rejected overlapping `add_data` keeps its mutation
(the source inserts before it scans), and on the resulting builder —
which stores `(0, [1,2,3,4])` and `(2, [9])` — the duplicate-address call
`add_data(2, [7])` returns `DataOverlap(2)`, not `Ok`: the stale overlap
makes the scan fail on every later call, duplicate address or not. -/
theorem add_data_duplicate_counterexample :
    ((builder256.add_data 0 [1, 2, 3, 4]).1.add_data 2 [9]).2
        = Except.error (FlashBuilderError.DataOverlap 2)
    ∧ builderStaleOverlap.flash_operations = [⟨0, [1, 2, 3, 4]⟩, ⟨2, [9]⟩]
    ∧ (builderStaleOverlap.flash_operations.any fun op => op.address == 2) = true
    ∧ (2 : Nat) ≥ builderStaleOverlap.flash_start
    ∧ (builderStaleOverlap.add_data 2 [7]).2
        = Except.error (FlashBuilderError.DataOverlap 2) := by
  decide

/-- Claim C10 (amended): `add_data` at an address equal to a stored
operation's address, on a builder whose stored operation list passes the
overlap scan (the state after any sequence of successful `add_data`
calls), with the duplicated address at or above `flash_start` (which holds
for every address a successful `add_data` stored) and no `u32`
overflow, returns `Ok`, leaves the operation list unchanged (the new
operation is silently discarded), and still increments
`buffered_data_size` by the length of the discarded data. -/
theorem add_data_duplicate_dropped (b : FlashBuilder) (address : Nat)
    (data : List Nat)
    (hmem : (b.flash_operations.any fun op => op.address == address) = true)
    (hge : address ≥ b.flash_start)
    (hscan : Builder.check_overlap b.flash_operations = Except.ok ())
    (hlen : data.length < 4294967296)
    (hsize : b.buffered_data_size + data.length < 4294967296) :
    b.add_data address data
      = ({ b with buffered_data_size := b.buffered_data_size + data.length },
         Except.ok ()) := by
  simp [FlashBuilder.add_data, hge, hmem, wrap32, Nat.mod_eq_of_lt hlen,
    Nat.mod_eq_of_lt hsize, hscan]

/-- Witness for C10: adding `[7, 8, 9]` at the already-stored address 16
succeeds, drops the operation, and bumps `buffered_data_size` from 2 to 5. -/
theorem add_data_duplicate_dropped_witness :
    (builderWithOp16.flash_operations.any fun op => op.address == 16) = true
    ∧ (16 : Nat) ≥ builderWithOp16.flash_start
    ∧ Builder.check_overlap builderWithOp16.flash_operations = Except.ok ()
    ∧ ([7, 8, 9] : List Nat).length < 4294967296
    ∧ builderWithOp16.buffered_data_size + ([7, 8, 9] : List Nat).length < 4294967296
    ∧ builderWithOp16.add_data 16 [7, 8, 9]
        = ({ builderWithOp16 with buffered_data_size := 5 }, Except.ok ()) :=
  ⟨by decide, by decide, by decide, by decide, by decide,
   add_data_duplicate_dropped builderWithOp16 16 [7, 8, 9]
     (by decide) (by decide) (by decide) (by decide) (by decide)⟩
